import Mathlib

/-!
Verification of the libpressio metrics plugins (error_stat and external)
against their specification.  The definitions below are a shallow embedding
of src/src/plugins/metrics/error_stat.cc: the external-metrics wire-protocol
parser, the command-line builder, the option handling, and the streaming
error-statistics computation.  Machine doubles are modelled as exact
rationals for the accumulators (every IEEE double is a rational; rounding is
idealised away) and as real numbers where sqrt and log10 enter; the IEEE
special values of the psnr expression are modelled explicitly.
-/

namespace LibpressioSpec

/-! ## The options store

Models pressio_options: a map from string keys to typed option values.
An entry either holds a value (set) or only a type (set_type).  std::map
ordering does not affect lookup semantics, so an association list with
replace-or-append insertion is a faithful model. -/

/-- Option type tags used by the plugins (pressio_option_double_type,
pressio_option_int32_type, pressio_option_charptr_type). -/
inductive option_type where
  | double_t
  | int32_t
  | charptr_t
deriving DecidableEq, Repr

/-- A stored option: a double (model type V), an int32, a string, or a
type-only placeholder produced by set_type. -/
inductive pressio_option (V : Type) where
  | dbl (v : V)
  | i32 (n : Int)
  | str (s : String)
  | typed (t : option_type)
deriving DecidableEq, Repr

/-- pressio_options modelled as an association list built only through
opts_set and opts_set_type, so each key occurs at most once. -/
abbrev pressio_options (V : Type) := List (String × pressio_option V)

/-- Lookup of a key (pressio_options::get). -/
def opts_get {V : Type} : pressio_options V → String → Option (pressio_option V)
  | [], _ => none
  | (k', v) :: rest, k => if k = k' then some v else opts_get rest k

/-- Insert-or-replace of a value (pressio_options::set). -/
def opts_set {V : Type} : pressio_options V → String → pressio_option V → pressio_options V
  | [], k, v => [(k, v)]
  | (k', v') :: rest, k, v =>
      if k = k' then (k, v) :: rest else (k', v') :: opts_set rest k v

/-- Insert-or-replace of a type-only placeholder (pressio_options::set_type). -/
def opts_set_type {V : Type} (m : pressio_options V) (k : String) (t : option_type) :
    pressio_options V :=
  opts_set m k (pressio_option.typed t)

/-! ## String utilities

The parser in error_stat.cc works on std::string via find, substr, getline
and the stoull/stod conversions.  In Lean 4.14 a String is a structure over
a list of characters, so these are modelled by structural recursion on the
character list. -/

/-- Position of the first occurrence of a character (std::string::find). -/
def char_find : List Char → Char → Option Nat
  | [], _ => none
  | c :: cs, t => if c = t then some 0 else (char_find cs t).map (fun i => i + 1)

/-- Prefix of the first n characters (std::string::substr(0, n)). -/
def str_take (s : String) (n : Nat) : String := String.mk (s.data.take n)

/-- Suffix from character position n (std::string::substr(n)). -/
def str_drop (s : String) (n : Nat) : String := String.mk (s.data.drop n)

/-- Position just past the first occurrence of c, i.e. find(c) + 1 computed
in size_t arithmetic: when the character is absent, npos + 1 wraps to 0. -/
def find_past (s : String) (c : Char) : Nat :=
  match char_find s.data c with
  | some i => i + 1
  | none => 0

/-- The std::getline loop: splits a stream into the lines getline yields,
consuming terminating newlines; a trailing newline does not produce an
extra empty line, and an empty stream yields no lines. -/
def getlines (cur : List Char) : List Char → List String
  | [] => [String.mk cur.reverse]
  | c :: rest =>
      if c = '\n' then
        String.mk cur.reverse :: (if rest.isEmpty then [] else getlines [] rest)
      else
        getlines (c :: cur) rest

/-- All lines of a captured stdout text, with std::getline semantics. -/
def get_lines (s : String) : List String :=
  if s.data.isEmpty then [] else getlines [] s.data

/-- Characters treated as whitespace by the C numeric conversions. -/
def is_space (c : Char) : Bool :=
  c = ' ' || c = '\t' || c = '\n' || c = '\r' || c = '\x0b' || c = '\x0c'

/-- Decimal digit test. -/
def is_digit (c : Char) : Bool := '0' ≤ c && c ≤ '9'

/-- Value of a list of decimal digits. -/
def digits_val (ds : List Char) : Nat :=
  ds.foldl (fun a c => 10 * a + (c.toNat - 48)) 0

/-- Model of std::stoull (base 10): skip leading whitespace, optional sign,
then a non-empty run of digits; no digits or a value out of the 64-bit
range raises an exception (none); a minus sign negates modulo 2^64. -/
def stoull (s : String) : Option Nat :=
  let cs := (s.data).dropWhile (fun c => is_space c)
  let signed : Bool × List Char :=
    match cs with
    | '+' :: r => (false, r)
    | '-' :: r => (true, r)
    | _ => (false, cs)
  let ds := signed.2.takeWhile (fun c => is_digit c)
  if ds.isEmpty then none
  else
    let v := digits_val ds
    if v < 2 ^ 64 then some (if signed.1 then (2 ^ 64 - v) % 2 ^ 64 else v)
    else none

/-- Model of std::stod on the plain decimal forms used by the wire protocol:
optional whitespace and sign, integer digits, optional fractional digits,
optional exponent.  The value is kept as an exact rational (rounding to the
nearest double and the inf/nan/hex forms are idealised away).  No digits at
all raises an exception (none). -/
def stod (s : String) : Option ℚ :=
  let cs := (s.data).dropWhile (fun c => is_space c)
  let signed : Bool × List Char :=
    match cs with
    | '+' :: r => (false, r)
    | '-' :: r => (true, r)
    | _ => (false, cs)
  let ip := signed.2.takeWhile (fun c => is_digit c)
  let rest1 := signed.2.dropWhile (fun c => is_digit c)
  let fp : List Char × List Char :=
    match rest1 with
    | '.' :: r => (r.takeWhile (fun c => is_digit c), r.dropWhile (fun c => is_digit c))
    | _ => ([], rest1)
  if ip.isEmpty && fp.1.isEmpty then none
  else
    let expo : Int :=
      match fp.2 with
      | 'e' :: r => stod_exp r
      | 'E' :: r => stod_exp r
      | _ => 0
    let mant : Int := (digits_val (ip ++ fp.1) : Int)
    let num : Int :=
      (if signed.1 then -mant else mant) * (if 0 ≤ expo then (10 : Int) ^ expo.toNat else 1)
    let den : Nat := 10 ^ fp.1.length * (if 0 ≤ expo then 1 else 10 ^ (-expo).toNat)
    some (mkRat num den)
where
  /-- Exponent part: optional sign then digits; when no digits follow, the
  exponent marker is not part of the conversion and contributes nothing. -/
  stod_exp (r : List Char) : Int :=
    let se : Bool × List Char :=
      match r with
      | '+' :: r2 => (false, r2)
      | '-' :: r2 => (true, r2)
      | _ => (false, r)
    let ds := se.2.takeWhile (fun c => is_digit c)
    if ds.isEmpty then 0
    else if se.1 then -(digits_val ds : Int) else (digits_val ds : Int)

/-! ## The external metrics wire-protocol parser

Embedding of external_metric_plugin::api_version_number, parse_v1 and
parse_result from error_stat.cc.  Exceptions (stoull/stod with no digits)
are modelled by Option: none is an exception reaching the catch block. -/

/-- external_metric_plugin::api_version_number: reads the first line, takes
eq_pos = find('=') + 1 (0 when absent, by size_t wrap-around), reports an
error (0) when substr(0, eq_pos) equals "external:api", and otherwise
converts the tail after eq_pos with stoull. -/
def api_version_number (version_line : String) : Option Nat :=
  let eq_pos := find_past version_line '='
  if str_take version_line eq_pos = "external:api" then some 0
  else stoull (str_drop version_line eq_pos)

/-- One iteration of the parse_v1 loop on one line: the name is
substr(0, find('=')) (the whole line when '=' is absent), the value text is
substr(find('=') + 1) (the whole line again when '=' is absent, by size_t
wrap-around), converted with stod. -/
def parse_line (line : String) : Option (String × ℚ) :=
  let p : String × String :=
    match char_find line.data '=' with
    | some i => (str_take line i, str_drop line (i + 1))
    | none => (line, line)
  (stod p.2).map (fun v => (p.1, v))

/-- The parse_v1 getline loop over the remaining lines; a stod exception on
any line aborts the whole parse. -/
def parse_lines : List String → Option (List (String × ℚ))
  | [] => some []
  | l :: ls =>
      match parse_line l, parse_lines ls with
      | some e, some es => some (e :: es)
      | _, _ => none

/-- external_metric_plugin::parse_v1: clears the result set, stores each
parsed line under "external:results:" ++ name, then appends the captured
stderr, the process return code, and the error code (set to the same return
code). -/
def parse_v1 (lines : List String) (proc_stderr : String) (return_code : Int) :
    Option (pressio_options ℚ) :=
  match parse_lines lines with
  | none => none
  | some entries =>
      some (opts_set
             (opts_set
               (opts_set
                 (entries.foldl
                   (fun m e => opts_set m ("external:results:" ++ e.1) (pressio_option.dbl e.2))
                   [])
                 "external:stderr" (pressio_option.str proc_stderr))
               "external:return_code" (pressio_option.i32 return_code))
             "external:error_code" (pressio_option.i32 return_code))

/-- The body of the try block of parse_result: version detection on the
first getline result, parse_v1 for version 1, and fall-through (none) for
every other version or any exception. -/
def parse_attempt (proc_stdout proc_stderr : String) (return_code : Int) :
    Option (pressio_options ℚ) :=
  let lines := get_lines proc_stdout
  match api_version_number (lines.headD "") with
  | some 1 => parse_v1 lines.tail proc_stderr return_code
  | _ => none

/-- The format_error value of the extern_proc_error_codes enumeration. -/
def format_error : Int := 4

/-- external_metric_plugin::parse_result: on any parse failure the member
result set is cleared and replaced by the three-entry error marker with
error code format_error; on success it is the parse_v1 result.  The prior
member contents never survive. -/
def parse_result (prior : pressio_options ℚ) (proc_stdout proc_stderr : String)
    (return_code : Int) : pressio_options ℚ :=
  match parse_attempt proc_stdout proc_stderr return_code with
  | some m => m
  | none =>
      opts_set
        (opts_set
          (opts_set (opts_clear prior) "external:error_code" (pressio_option.i32 format_error))
          "external:return_code" (pressio_option.i32 0))
        "external:stderr" (pressio_option.str "")
where
  /-- pressio_options::clear. -/
  opts_clear (_ : pressio_options ℚ) : pressio_options ℚ := []

/-- The value the parse_v1 loop leaves under a result key: the parsed value
of the last line whose name maps to that key (later lines overwrite earlier
ones with the same name). -/
def last_result_val : List (String × ℚ) → String → Option ℚ
  | [], _ => none
  | e :: es, k =>
      match last_result_val es k with
      | some v => some v
      | none => if k = "external:results:" ++ e.1 then some e.2 else none

/-! ## The external command line (build_command) -/

/-- The pressio_dtype enumeration of dataset element types. -/
inductive pressio_dtype where
  | float_dtype
  | double_dtype
  | int8_dtype
  | int16_dtype
  | int32_dtype
  | int64_dtype
  | uint8_dtype
  | uint16_dtype
  | uint32_dtype
  | uint64_dtype
  | byte_dtype
deriving DecidableEq, Repr

/-- The switch on input_data.dtype() inside build_command. -/
def dtype_arg : pressio_dtype → String
  | .float_dtype => "float"
  | .double_dtype => "double"
  | .int8_dtype => "int8"
  | .int16_dtype => "int16"
  | .int32_dtype => "int32"
  | .int64_dtype => "int64"
  | .uint8_dtype => "uint8"
  | .uint16_dtype => "uint16"
  | .uint32_dtype => "uint32"
  | .uint64_dtype => "uint64"
  | .byte_dtype => "byte"

/-- external_metric_plugin::build_command: streams the configured command,
the fixed flags, the type name, and one --dim flag per dimension into an
ostringstream. -/
def build_command (command input_path decomp_path : String) (dtype : pressio_dtype)
    (dims : List Nat) : String :=
  let ss := command ++ " --api 1" ++ " --input " ++ input_path ++ " --decompressed "
              ++ decomp_path ++ " --type " ++ dtype_arg dtype
  dims.foldl (fun s i => s ++ " --dim " ++ toString i) ss

/-- Modelled from the spec: the type-name mapping of the wire protocol,
"one of: float, double, int8/16/32/64, uint8/16/32/64, byte — mapped from
the dataset's element type", stated independently of the source switch. -/
def spec_type_name : pressio_dtype → String
  | .float_dtype => "float"
  | .double_dtype => "double"
  | .int8_dtype => "int8"
  | .int16_dtype => "int16"
  | .int32_dtype => "int32"
  | .int64_dtype => "int64"
  | .uint8_dtype => "uint8"
  | .uint16_dtype => "uint16"
  | .uint32_dtype => "uint32"
  | .uint64_dtype => "uint64"
  | .byte_dtype => "byte"

/-- Modelled from the spec: "one --dim <extent> flag per dimension in shape
order", as a flat right-to-left concatenation of per-dimension flags. -/
def spec_dim_flags : List Nat → String
  | [] => ""
  | d :: ds => " --dim " ++ toString d ++ spec_dim_flags ds

/-! ## Configuration of the external metrics runner (set_metrics_options) -/

/-- The configuration state of external_metric_plugin that
set_metrics_options touches: the command template, the io-format name, and
the currently bound serialization backend.  The backend handle is a
pressio_io, which is nullable (default-constructed with a null plugin),
hence an Option. -/
structure external_config (B : Type) where
  command : String
  io_format : String
  io_module : Option B
deriving DecidableEq, Repr

/-- The two option keys set_metrics_options reads; get assigns the output
argument only when the key is present (pressio_options_key_set). -/
structure metric_options where
  command : Option String
  io_format : Option String
deriving DecidableEq, Repr

/-- Modelled from the spec: pressio::get_io instantiates the serialization
backend registered under a name; the registry maps registered names to
backends, and instantiation fails (yields no backend) for a name with no
registered entry.  The implementation of pressio::get_io is outside the
provided sources; the nullable pressio_io handle type is in
include/libpressio_ext/cpp/io.h. -/
def get_io {B : Type} (registry : List (String × B)) (name : String) : Option B :=
  match registry with
  | [] => none
  | (n, b) :: rest => if name = n then some b else get_io rest name

/-- external_metric_plugin::set_metrics_options: reads external:command,
and when external:io_format is present re-binds io_module to the result of
library.get_io unconditionally; it then calls io_module->set_options, which
dereferences the handle — when the handle is null this is undefined
behaviour (no result, modelled as none); otherwise it returns 0. -/
def set_metrics_options {B : Type} (registry : List (String × B))
    (s : external_config B) (opt : metric_options) : Option (Int × external_config B) :=
  let command := opt.command.getD s.command
  let fm : String × Option B :=
    match opt.io_format with
    | some f => (f, get_io registry f)
    | none => (s.io_format, s.io_module)
  match fm.2 with
  | some b => some (0, { command := command, io_format := fm.1, io_module := some b })
  | none => none

/-! ## The streaming error statistics (compute_metrics)

The loop of compute_metrics::operator() in error_stat.cc, modelled over
exact rationals (every IEEE double is a rational; accumulation is idealised
as exact).  The square root and the psnr expression, which leave the
rationals, are modelled over the reals, with the IEEE special values of the
psnr expression made explicit. -/

/-- The running accumulators of the compute_metrics loop, named after the
locals of the source. -/
structure stat_acc where
  sum_of_squared_error : ℚ
  sum_of_difference : ℚ
  sum_of_error : ℚ
  sum_of_values_squared : ℚ
  sum : ℚ
  num_elements : Nat
  value_min : ℚ
  value_max : ℚ
  diff_min : ℚ
  diff_max : ℚ
  error_min : ℚ
  error_max : ℚ
deriving Repr

/-- The accumulator state before the loop: sums are zero and the min/max
trackers are seeded from the first elements of both ranges. -/
def stat_init (x0 y0 : ℚ) : stat_acc :=
  { sum_of_squared_error := 0
    sum_of_difference := 0
    sum_of_error := 0
    sum_of_values_squared := 0
    sum := 0
    num_elements := 0
    value_min := x0
    value_max := x0
    diff_min := x0 - y0
    diff_max := x0 - y0
    error_min := |x0 - y0|
    error_max := |x0 - y0| }

/-- One iteration of the compute_metrics loop on the element pair p. -/
def stat_step (a : stat_acc) (p : ℚ × ℚ) : stat_acc :=
  let diff := p.1 - p.2
  let error := |diff|
  let squared_error := error * error
  { sum_of_squared_error := a.sum_of_squared_error + squared_error
    sum_of_difference := a.sum_of_difference + diff
    sum_of_error := a.sum_of_error + error
    sum_of_values_squared := a.sum_of_values_squared + p.1 * p.1
    sum := a.sum + p.1
    num_elements := a.num_elements + 1
    value_min := min a.value_min p.1
    value_max := max a.value_max p.1
    diff_min := min diff a.diff_min
    diff_max := max diff a.diff_max
    error_min := min error a.error_min
    error_max := max error a.error_max }

/-- An extended double for the fields whose IEEE evaluation can leave the
finite numbers: a finite real, an infinity, or NaN. -/
inductive ext_double where
  | fin (x : ℝ)
  | posInf
  | negInf
  | nan

/-- IEEE evaluation of -20.0 * log10(rmse / value_range) for rmse ≥ 0, as
a double computes it: rmse/0 is NaN when rmse = 0 and +inf otherwise
(giving psnr NaN resp. -inf); log10 of +0 is -inf (giving psnr +inf);
log10 of a negative quotient is NaN; otherwise the value is finite. -/
noncomputable def ieee_psnr (rmse range : ℝ) : ext_double :=
  if range = 0 then
    if rmse = 0 then ext_double.nan else ext_double.negInf
  else if rmse / range = 0 then ext_double.posInf
  else if rmse / range < 0 then ext_double.nan
  else ext_double.fin (-20 * Real.logb 10 (rmse / range))

/-- The error_metrics record filled in after the loop.  All purely rational
fields keep their exact values; rmse (a square root) is real, and psnr is
an extended double. -/
structure error_metrics where
  psnr : ext_double
  mse : ℚ
  rmse : ℝ
  value_range : ℚ
  min_error : ℚ
  max_error : ℚ
  min_rel_error : ℚ
  max_rel_error : ℚ
  average_difference : ℚ
  average_error : ℚ
  difference_range : ℚ
  error_range : ℚ
  value_min : ℚ
  value_max : ℚ
  value_std : ℚ
  value_mean : ℚ

/-- compute_metrics::operator() over two equal-length ranges given as
lists: the lockstep loop followed by the derivation of the sixteen fields.
The dereference of the first elements before the loop is undefined for an
empty range; the model seeds with 0 there (every claim assumes non-empty
input). -/
noncomputable def compute_metrics (input input2 : List ℚ) : error_metrics :=
  let a := (input.zip input2).foldl stat_step (stat_init (input.headD 0) (input2.headD 0))
  let n : ℚ := (a.num_elements : ℚ)
  let mse := a.sum_of_squared_error / n
  { mse := mse
    rmse := Real.sqrt (mse : ℝ)
    average_difference := a.sum_of_difference / n
    average_error := a.sum_of_error / n
    value_min := a.value_min
    value_max := a.value_max
    value_mean := a.sum / n
    value_std := a.sum_of_values_squared - (a.sum * a.sum) / n
    value_range := a.value_max - a.value_min
    difference_range := a.diff_max - a.diff_min
    error_range := a.error_max - a.error_min
    min_error := a.error_min
    max_error := a.error_max
    min_rel_error := a.error_min / (a.value_max - a.value_min)
    max_rel_error := a.error_max / (a.value_max - a.value_min)
    psnr := ieee_psnr (Real.sqrt (mse : ℝ)) ((a.value_max - a.value_min : ℚ) : ℝ) }

/-! ## The error_stat result accessor (get_metrics_results) -/

/-- The sixteen result keys of the error_stat plugin. -/
def error_stat_keys : List String :=
  ["error_stat:psnr", "error_stat:mse", "error_stat:rmse", "error_stat:value_mean",
   "error_stat:value_std", "error_stat:value_min", "error_stat:value_max",
   "error_stat:value_range", "error_stat:min_error", "error_stat:max_error",
   "error_stat:min_rel_error", "error_stat:max_rel_error", "error_stat:average_difference",
   "error_stat:average_error", "error_stat:difference_range", "error_stat:error_range"]

/-- error_stat_plugin::get_metrics_results: a fresh option set holding, when
err_metrics is present, the sixteen computed values, and otherwise sixteen
double-typed placeholders. -/
noncomputable def get_metrics_results (err_metrics : Option error_metrics) :
    pressio_options ext_double :=
  match err_metrics with
  | some m =>
      opts_set (opts_set (opts_set (opts_set
      (opts_set (opts_set (opts_set (opts_set
      (opts_set (opts_set (opts_set (opts_set
      (opts_set (opts_set (opts_set (opts_set []
        "error_stat:psnr" (pressio_option.dbl m.psnr))
        "error_stat:mse" (pressio_option.dbl (ext_double.fin (m.mse : ℝ))))
        "error_stat:rmse" (pressio_option.dbl (ext_double.fin m.rmse)))
        "error_stat:value_mean" (pressio_option.dbl (ext_double.fin (m.value_mean : ℝ))))
        "error_stat:value_std" (pressio_option.dbl (ext_double.fin (m.value_std : ℝ))))
        "error_stat:value_min" (pressio_option.dbl (ext_double.fin (m.value_min : ℝ))))
        "error_stat:value_max" (pressio_option.dbl (ext_double.fin (m.value_max : ℝ))))
        "error_stat:value_range" (pressio_option.dbl (ext_double.fin (m.value_range : ℝ))))
        "error_stat:min_error" (pressio_option.dbl (ext_double.fin (m.min_error : ℝ))))
        "error_stat:max_error" (pressio_option.dbl (ext_double.fin (m.max_error : ℝ))))
        "error_stat:min_rel_error" (pressio_option.dbl (ext_double.fin (m.min_rel_error : ℝ))))
        "error_stat:max_rel_error" (pressio_option.dbl (ext_double.fin (m.max_rel_error : ℝ))))
        "error_stat:average_difference"
          (pressio_option.dbl (ext_double.fin (m.average_difference : ℝ))))
        "error_stat:average_error" (pressio_option.dbl (ext_double.fin (m.average_error : ℝ))))
        "error_stat:difference_range"
          (pressio_option.dbl (ext_double.fin (m.difference_range : ℝ))))
        "error_stat:error_range" (pressio_option.dbl (ext_double.fin (m.error_range : ℝ)))
  | none =>
      opts_set_type (opts_set_type (opts_set_type (opts_set_type
      (opts_set_type (opts_set_type (opts_set_type (opts_set_type
      (opts_set_type (opts_set_type (opts_set_type (opts_set_type
      (opts_set_type (opts_set_type (opts_set_type (opts_set_type []
        "error_stat:psnr" option_type.double_t)
        "error_stat:mse" option_type.double_t)
        "error_stat:rmse" option_type.double_t)
        "error_stat:value_mean" option_type.double_t)
        "error_stat:value_std" option_type.double_t)
        "error_stat:value_min" option_type.double_t)
        "error_stat:value_max" option_type.double_t)
        "error_stat:value_range" option_type.double_t)
        "error_stat:min_error" option_type.double_t)
        "error_stat:max_error" option_type.double_t)
        "error_stat:min_rel_error" option_type.double_t)
        "error_stat:max_rel_error" option_type.double_t)
        "error_stat:average_difference" option_type.double_t)
        "error_stat:average_error" option_type.double_t)
        "error_stat:difference_range" option_type.double_t)
        "error_stat:error_range" option_type.double_t

/-- The value the specification assigns to each error_stat result key, read
off an error_metrics record. -/
noncomputable def spec_field_value (m : error_metrics) (k : String) : ext_double :=
  if k = "error_stat:psnr" then m.psnr
  else if k = "error_stat:mse" then ext_double.fin (m.mse : ℝ)
  else if k = "error_stat:rmse" then ext_double.fin m.rmse
  else if k = "error_stat:value_mean" then ext_double.fin (m.value_mean : ℝ)
  else if k = "error_stat:value_std" then ext_double.fin (m.value_std : ℝ)
  else if k = "error_stat:value_min" then ext_double.fin (m.value_min : ℝ)
  else if k = "error_stat:value_max" then ext_double.fin (m.value_max : ℝ)
  else if k = "error_stat:value_range" then ext_double.fin (m.value_range : ℝ)
  else if k = "error_stat:min_error" then ext_double.fin (m.min_error : ℝ)
  else if k = "error_stat:max_error" then ext_double.fin (m.max_error : ℝ)
  else if k = "error_stat:min_rel_error" then ext_double.fin (m.min_rel_error : ℝ)
  else if k = "error_stat:max_rel_error" then ext_double.fin (m.max_rel_error : ℝ)
  else if k = "error_stat:average_difference" then ext_double.fin (m.average_difference : ℝ)
  else if k = "error_stat:average_error" then ext_double.fin (m.average_error : ℝ)
  else if k = "error_stat:difference_range" then ext_double.fin (m.difference_range : ℝ)
  else ext_double.fin (m.error_range : ℝ)

/-- Modelled from the spec: the result accessor holds exactly the sixteen
error_stat keys — double-typed placeholders while no metrics have been
computed, and the computed values afterwards; every other key is absent. -/
noncomputable def spec_error_stat_results (err_metrics : Option error_metrics) (k : String) :
    Option (pressio_option ext_double) :=
  if k ∈ error_stat_keys then
    match err_metrics with
    | none => some (pressio_option.typed option_type.double_t)
    | some m => some (pressio_option.dbl (spec_field_value m k))
  else none

end LibpressioSpec

namespace LibpressioSpec

/-! ## Lemmas about the options store -/

theorem opts_get_set_self {V : Type} (m : pressio_options V) (k : String)
    (v : pressio_option V) : opts_get (opts_set m k v) k = some v := by
  induction m with
  | nil => simp [opts_set, opts_get]
  | cons p rest ih =>
      obtain ⟨k', v'⟩ := p
      by_cases h : k = k'
      · simp [opts_set, opts_get, h]
      · simp [opts_set, opts_get, h, ih]

theorem opts_get_set_ne {V : Type} (m : pressio_options V) (k k' : String)
    (v : pressio_option V) (h : k ≠ k') : opts_get (opts_set m k' v) k = opts_get m k := by
  induction m with
  | nil => simp [opts_set, opts_get, h]
  | cons p rest ih =>
      obtain ⟨k0, v0⟩ := p
      by_cases h0 : k' = k0
      · subst h0
        simp [opts_set, opts_get, h]
      · by_cases h1 : k = k0
        · simp [opts_set, opts_get, h0, h1]
        · simp [opts_set, opts_get, h0, h1, ih]

theorem opts_get_set_cases {V : Type} (m : pressio_options V) (k k' : String)
    (v : pressio_option V) (h : opts_get (opts_set m k' v) k ≠ none) :
    k = k' ∨ opts_get m k ≠ none := by
  by_cases hk : k = k'
  · exact Or.inl hk
  · right
    rw [opts_get_set_ne m k k' v hk] at h
    exact h

/-- Lookup after the parse_v1 result loop: the last line with a matching
name wins; keys not written by the loop keep their prior binding. -/
theorem opts_get_results_fold (entries : List (String × ℚ)) (m : pressio_options ℚ)
    (k : String) :
    opts_get (entries.foldl
        (fun m e => opts_set m ("external:results:" ++ e.1) (pressio_option.dbl e.2)) m) k =
      match last_result_val entries k with
      | some v => some (pressio_option.dbl v)
      | none => opts_get m k := by
  induction entries generalizing m with
  | nil => simp [last_result_val]
  | cons e es ih =>
      rw [List.foldl_cons, ih]
      by_cases hl : ∃ v, last_result_val es k = some v
      · obtain ⟨v, hv⟩ := hl
        simp [last_result_val, hv]
      · have hn : last_result_val es k = none := by
          cases hval : last_result_val es k with
          | none => rfl
          | some v => exact absurd ⟨v, hval⟩ hl
        by_cases hk : k = "external:results:" ++ e.1
        · subst hk
          simp [last_result_val, hn, opts_get_set_self]
        · simp [last_result_val, hn, hk, opts_get_set_ne _ _ _ _ hk]

/-- A key carrying a last value comes from some entry. -/
theorem last_result_val_mem (entries : List (String × ℚ)) (k : String) (v : ℚ)
    (h : last_result_val entries k = some v) :
    ∃ e ∈ entries, k = "external:results:" ++ e.1 := by
  induction entries with
  | nil => simp [last_result_val] at h
  | cons e es ih =>
      rw [last_result_val] at h
      cases hes : last_result_val es k with
      | some w =>
          obtain ⟨e', he', hk⟩ := ih (by rw [hes] at h ⊢; exact h ▸ rfl)
          exact ⟨e', List.mem_cons_of_mem _ he', hk⟩
      | none =>
          rw [hes] at h
          by_cases hk : k = "external:results:" ++ e.1
          · exact ⟨e, List.mem_cons_self e es, hk⟩
          · simp [hk] at h

/-- Every entry's key carries a last value. -/
theorem last_result_val_of_mem (entries : List (String × ℚ)) (e : String × ℚ)
    (he : e ∈ entries) :
    ∃ v, last_result_val entries ("external:results:" ++ e.1) = some v := by
  induction entries with
  | nil => simp at he
  | cons e0 es ih =>
      rcases List.mem_cons.mp he with h0 | hmem
      · subst h0
        cases hes : last_result_val es ("external:results:" ++ e.1) with
        | some w => exact ⟨w, by rw [last_result_val, hes]⟩
        | none => exact ⟨e.2, by rw [last_result_val, hes]; simp⟩
      · obtain ⟨v, hv⟩ := ih hmem
        exact ⟨v, by rw [last_result_val, hv]⟩

/-- An appended string differs from a string whose matching prefix differs. -/
theorem append_ne_of_take_ne (a x k : String) (h : k.data.take a.data.length ≠ a.data) :
    a ++ x ≠ k := by
  intro he
  apply h
  rw [← he]
  have hd : (a ++ x).data = a.data ++ x.data := rfl
  rw [hd, List.take_left]

theorem results_key_ne_stderr (x : String) : "external:results:" ++ x ≠ "external:stderr" :=
  append_ne_of_take_ne _ _ _ (by decide)

theorem results_key_ne_return_code (x : String) :
    "external:results:" ++ x ≠ "external:return_code" :=
  append_ne_of_take_ne _ _ _ (by decide)

theorem results_key_ne_error_code (x : String) :
    "external:results:" ++ x ≠ "external:error_code" :=
  append_ne_of_take_ne _ _ _ (by decide)

/-! ## Claim C1 -/

/-- C1 (code bug): the claim says stdout is parsed as protocol version 1
only when the first line is exactly external:api=1.  In the code the
validation substring in api_version_number includes the equals sign, so the
comparison with "external:api" never fires and the error branch is dead:
the first line bogus=1 is accepted as version 1, the remaining lines are
parsed as v1 results, and the error code is the exit code instead of
format_error with empty results. -/
theorem api_line_validation_code_bug :
    api_version_number "bogus=1" = some 1 ∧
    opts_get (parse_result [] "bogus=1\nfoo=2\n" "" 0) "external:error_code"
      = some (pressio_option.i32 0) ∧
    ¬ opts_get (parse_result [] "bogus=1\nfoo=2\n" "" 0) "external:error_code"
      = some (pressio_option.i32 format_error) ∧
    opts_get (parse_result [] "bogus=1\nfoo=2\n" "" 0) "external:results:foo"
      = some (pressio_option.dbl 2) := by
  decide

/-! ## Claim C3 -/

/-- C3: whenever the captured stdout fails to parse under the wire protocol
(any exception or unsupported version, i.e. the attempt yields nothing),
parse_result replaces the entire prior result set by exactly the three-entry
error marker whose error code equals format_error, for every prior result
set and every process exit code. -/
theorem parse_failure_clears_results (prior : pressio_options ℚ)
    (proc_stdout proc_stderr : String) (return_code : Int)
    (hfail : parse_attempt proc_stdout proc_stderr return_code = none) :
    parse_result prior proc_stdout proc_stderr return_code =
      [("external:error_code", pressio_option.i32 format_error),
       ("external:return_code", pressio_option.i32 0),
       ("external:stderr", pressio_option.str "")] ∧
    opts_get (parse_result prior proc_stdout proc_stderr return_code) "external:error_code"
      = some (pressio_option.i32 format_error) := by
  have hres : parse_result prior proc_stdout proc_stderr return_code =
      [("external:error_code", pressio_option.i32 format_error),
       ("external:return_code", pressio_option.i32 0),
       ("external:stderr", pressio_option.str "")] := by
    simp only [parse_result, parse_result.opts_clear, hfail]
    decide
  exact ⟨hres, by rw [hres]; decide⟩

/-- Witness for C3 at a concrete malformed stdout with nonzero exit code
and a non-trivial prior result set. -/
theorem parse_failure_clears_results_witness :
    parse_result [("x", pressio_option.i32 1)] "garbage" "e" 7 =
      [("external:error_code", pressio_option.i32 format_error),
       ("external:return_code", pressio_option.i32 0),
       ("external:stderr", pressio_option.str "")] ∧
    opts_get (parse_result [("x", pressio_option.i32 1)] "garbage" "e" 7) "external:error_code"
      = some (pressio_option.i32 format_error) :=
  parse_failure_clears_results [("x", pressio_option.i32 1)] "garbage" "e" 7 (by decide)

/-! ## Claim C2 -/

/-- C2 (counterexample): on a version-1 stdout whose lines all parse but
contain the name a twice, the line a=1 does not keep an entry with its own
parsed value: the later line a=2 overwrites it, so the result set as the
claim states it (an entry holding the parsed value of each line) is false. -/
theorem parse_duplicate_name_counterexample :
    opts_get (parse_result [] "external:api=1\na=1\na=2\n" "" 0) "external:results:a"
      = some (pressio_option.dbl 2) ∧
    ¬ opts_get (parse_result [] "external:api=1\na=1\na=2\n" "" 0) "external:results:a"
      = some (pressio_option.dbl 1) := by
  decide

/-- C2 (amended): for every version-1 stdout whose lines after the api line
all parse, the result set contains, for each line name=value, an entry
external:results:name holding the parsed value of the last line with that
name (later duplicates overwrite earlier ones), plus exactly three fixed
fields: external:stderr with the captured stderr text, external:return_code
with the exit code, and external:error_code duplicated from the exit code;
no other key is present. -/
theorem parse_v1_results_amended (prior : pressio_options ℚ)
    (proc_stdout proc_stderr : String) (return_code : Int) (entries : List (String × ℚ))
    (hv : api_version_number ((get_lines proc_stdout).headD "") = some 1)
    (hp : parse_lines (get_lines proc_stdout).tail = some entries) :
    (∀ e ∈ entries, ∃ v : ℚ,
        last_result_val entries ("external:results:" ++ e.1) = some v ∧
        opts_get (parse_result prior proc_stdout proc_stderr return_code)
            ("external:results:" ++ e.1) = some (pressio_option.dbl v)) ∧
    opts_get (parse_result prior proc_stdout proc_stderr return_code) "external:stderr"
        = some (pressio_option.str proc_stderr) ∧
    opts_get (parse_result prior proc_stdout proc_stderr return_code) "external:return_code"
        = some (pressio_option.i32 return_code) ∧
    opts_get (parse_result prior proc_stdout proc_stderr return_code) "external:error_code"
        = some (pressio_option.i32 return_code) ∧
    (∀ k, opts_get (parse_result prior proc_stdout proc_stderr return_code) k ≠ none →
        k = "external:stderr" ∨ k = "external:return_code" ∨ k = "external:error_code" ∨
        ∃ e ∈ entries, k = "external:results:" ++ e.1) := by
  have hm : parse_result prior proc_stdout proc_stderr return_code =
      opts_set
        (opts_set
          (opts_set
            (entries.foldl
              (fun m e => opts_set m ("external:results:" ++ e.1) (pressio_option.dbl e.2))
              [])
            "external:stderr" (pressio_option.str proc_stderr))
          "external:return_code" (pressio_option.i32 return_code))
        "external:error_code" (pressio_option.i32 return_code) := by
    simp only [parse_result, parse_attempt, hv, parse_v1, hp]
  rw [hm]
  refine ⟨?_, ?_, ?_, ?_, ?_⟩
  · intro e he
    obtain ⟨v, hv'⟩ := last_result_val_of_mem entries e he
    refine ⟨v, hv', ?_⟩
    rw [opts_get_set_ne _ _ _ _ (results_key_ne_error_code e.1),
        opts_get_set_ne _ _ _ _ (results_key_ne_return_code e.1),
        opts_get_set_ne _ _ _ _ (results_key_ne_stderr e.1),
        opts_get_results_fold, hv']
  · rw [opts_get_set_ne _ _ _ _ (by decide), opts_get_set_ne _ _ _ _ (by decide),
        opts_get_set_self]
  · rw [opts_get_set_ne _ _ _ _ (by decide), opts_get_set_self]
  · rw [opts_get_set_self]
  · intro k hk
    rcases opts_get_set_cases _ _ _ _ hk with h1 | hk1
    · exact Or.inr (Or.inr (Or.inl h1))
    rcases opts_get_set_cases _ _ _ _ hk1 with h2 | hk2
    · exact Or.inr (Or.inl h2)
    rcases opts_get_set_cases _ _ _ _ hk2 with h3 | hk3
    · exact Or.inl h3
    right; right; right
    rw [opts_get_results_fold] at hk3
    cases hval : last_result_val entries k with
    | some v => exact last_result_val_mem entries k v hval
    | none =>
        rw [hval] at hk3
        simp [opts_get] at hk3

/-- Witness for the amended C2 at the round-trip stdout of the spec's §8
(external:api=1 then foo=1.5) with exit code 3, stderr "boo" and a
non-trivial prior result set. -/
theorem parse_v1_results_amended_witness :
    opts_get (parse_result [("junk", pressio_option.i32 9)] "external:api=1\nfoo=1.5\n" "boo" 3)
        "external:results:foo" = some (pressio_option.dbl (mkRat 3 2)) ∧
    opts_get (parse_result [("junk", pressio_option.i32 9)] "external:api=1\nfoo=1.5\n" "boo" 3)
        "external:stderr" = some (pressio_option.str "boo") ∧
    opts_get (parse_result [("junk", pressio_option.i32 9)] "external:api=1\nfoo=1.5\n" "boo" 3)
        "external:error_code" = some (pressio_option.i32 3) := by
  have h := parse_v1_results_amended [("junk", pressio_option.i32 9)]
    "external:api=1\nfoo=1.5\n" "boo" 3 [("foo", mkRat 3 2)] (by decide) (by decide)
  obtain ⟨h1, h2, h3, h4, h5⟩ := h
  obtain ⟨v, hv1, hv2⟩ := h1 ("foo", mkRat 3 2) (by simp)
  rw [show ("external:results:" ++ ("foo", mkRat 3 2).1 : String) = "external:results:foo"
        from rfl] at hv1 hv2
  rw [show last_result_val [("foo", mkRat 3 2)] "external:results:foo" = some (mkRat 3 2)
        from by decide] at hv1
  cases hv1
  exact ⟨hv2, h2, h4⟩

/-! ## Claim C8 -/

/-- The stream of --dim flags equals the flat per-dimension concatenation. -/
theorem foldl_dim_flags (dims : List Nat) (s : String) :
    dims.foldl (fun s i => s ++ " --dim " ++ toString i) s = s ++ spec_dim_flags dims := by
  induction dims generalizing s with
  | nil => simp [spec_dim_flags]
  | cons d ds ih =>
      rw [List.foldl_cons, ih, spec_dim_flags, String.append_assoc, String.append_assoc,
          String.append_assoc]

/-- C8: the command line built for the subprocess is the configured command
template followed, in this fixed order, by the --api 1, --input, and
--decompressed flags, the --type flag carrying the spec's type-name mapping
of the dataset's element type, and one --dim flag per dimension in shape
order. -/
theorem build_command_spec (command input_path decomp_path : String)
    (dtype : pressio_dtype) (dims : List Nat) :
    build_command command input_path decomp_path dtype dims =
      command ++ " --api 1" ++ " --input " ++ input_path ++ " --decompressed " ++ decomp_path
        ++ " --type " ++ spec_type_name dtype ++ spec_dim_flags dims := by
  have harg : dtype_arg dtype = spec_type_name dtype := by
    cases dtype <;> rfl
  rw [build_command, foldl_dim_flags, harg]

/-! ## Claim C9 -/

/-- C9 (counterexample): with a backend bound for posix and an option set
supplying the unregistered io-format bogus, set_metrics_options does not
leave the prior backend in place: the assignment from get_io nulls the
handle and the subsequent set_options dereference yields no resulting
state at all, so no outcome retains the prior backend. -/
theorem io_format_swap_failure_counterexample :
    set_metrics_options [("posix", (0 : Nat))]
        { command := "cmd", io_format := "posix", io_module := some 0 }
        { command := none, io_format := some "bogus" } = none ∧
    ¬ ∃ r : Int, ∃ st : external_config Nat,
        set_metrics_options [("posix", (0 : Nat))]
          { command := "cmd", io_format := "posix", io_module := some 0 }
          { command := none, io_format := some "bogus" } = some (r, st) := by
  refine ⟨by decide, ?_⟩
  rintro ⟨r, st, h⟩
  rw [show set_metrics_options [("posix", (0 : Nat))]
        { command := "cmd", io_format := "posix", io_module := some 0 }
        { command := none, io_format := some "bogus" } = none from by decide] at h
  cases h

/-- C9 (amended): when a newly supplied io-format identifier has no
registered backend, the runner does not keep the prior backend: io_module
is unconditionally re-assigned from get_io, the handle becomes null, and
the subsequent io_module->set_options dereference leaves no result. -/
theorem set_metrics_options_failure_amended {B : Type} (registry : List (String × B))
    (s : external_config B) (opt : metric_options) (fmt : String)
    (hf : opt.io_format = some fmt) (hfail : get_io registry fmt = none) :
    set_metrics_options registry s opt = none := by
  simp [set_metrics_options, hf, hfail]

/-- Witness for the amended C9 on a concrete registry and state. -/
theorem set_metrics_options_failure_amended_witness :
    set_metrics_options [("posix", (5 : Nat))]
        { command := "c", io_format := "posix", io_module := some 5 }
        { command := some "x", io_format := some "nope" } = none :=
  set_metrics_options_failure_amended [("posix", (5 : Nat))]
    { command := "c", io_format := "posix", io_module := some 5 }
    { command := some "x", io_format := some "nope" } "nope" (by decide) (by decide)

/-! ## Lemmas about the statistics loop -/

/-- The additive accumulators of the loop: running sum, sum of squares and
element count over any pair list. -/
theorem foldl_step_sums (l : List (ℚ × ℚ)) (a : stat_acc) :
    (l.foldl stat_step a).sum = a.sum + (l.map Prod.fst).sum ∧
    (l.foldl stat_step a).sum_of_values_squared
      = a.sum_of_values_squared + (l.map (fun p => p.1 * p.1)).sum ∧
    (l.foldl stat_step a).num_elements = a.num_elements + l.length := by
  induction l generalizing a with
  | nil => simp
  | cons p ps ih =>
      obtain ⟨h1, h2, h3⟩ := ih (stat_step a p)
      rw [List.foldl_cons]
      refine ⟨?_, ?_, ?_⟩
      · rw [h1]; simp [stat_step]; ring
      · rw [h2]; simp [stat_step]; ring
      · rw [h3]; simp [stat_step]; omega

/-- The loop keeps each min tracker below its max tracker. -/
theorem foldl_step_minmax (l : List (ℚ × ℚ)) (a : stat_acc) :
    (a.value_min ≤ a.value_max →
      (l.foldl stat_step a).value_min ≤ (l.foldl stat_step a).value_max) ∧
    (a.diff_min ≤ a.diff_max →
      (l.foldl stat_step a).diff_min ≤ (l.foldl stat_step a).diff_max) ∧
    (a.error_min ≤ a.error_max →
      (l.foldl stat_step a).error_min ≤ (l.foldl stat_step a).error_max) := by
  induction l generalizing a with
  | nil => simp
  | cons p ps ih =>
      obtain ⟨i1, i2, i3⟩ := ih (stat_step a p)
      rw [List.foldl_cons]
      refine ⟨fun h => i1 ?_, fun h => i2 ?_, fun h => i3 ?_⟩
      · exact le_trans (min_le_left _ _) (le_trans h (le_max_left _ _))
      · exact le_trans (min_le_left _ _) (le_max_left _ _)
      · exact le_trans (min_le_left _ _) (le_max_left _ _)

/-- Over a dataset zipped with itself every difference vanishes, so the
error accumulators stay at zero. -/
theorem foldl_step_self (l : List ℚ) (a : stat_acc)
    (h1 : a.sum_of_squared_error = 0) (h2 : a.sum_of_error = 0)
    (h3 : a.error_min = 0) (h4 : a.error_max = 0) :
    ((l.zip l).foldl stat_step a).sum_of_squared_error = 0 ∧
    ((l.zip l).foldl stat_step a).sum_of_error = 0 ∧
    ((l.zip l).foldl stat_step a).error_min = 0 ∧
    ((l.zip l).foldl stat_step a).error_max = 0 := by
  induction l generalizing a with
  | nil => simpa using ⟨h1, h2, h3, h4⟩
  | cons x xs ih =>
      rw [List.zip_cons_cons, List.foldl_cons]
      exact ih (stat_step a (x, x)) (by simp [stat_step, h1]) (by simp [stat_step, h2])
        (by simp [stat_step, h3]) (by simp [stat_step, h4])

/-! ## Claim C4 -/

/-- C4: for every non-empty pair of equal-length datasets, value_std is the
raw second-moment residual: the sum of squared values minus the squared sum
divided by the element count, with no further division by n. -/
theorem value_std_second_moment (input input2 : List ℚ) (h1 : input ≠ [])
    (h2 : input.length = input2.length) :
    (compute_metrics input input2).value_std =
      (input.map (fun x => x * x)).sum - input.sum * input.sum / (input.length : ℚ) := by
  obtain ⟨hs, hq, hn⟩ :=
    foldl_step_sums (input.zip input2) (stat_init (input.headD 0) (input2.headD 0))
  have hfst : (input.zip input2).map Prod.fst = input :=
    List.map_fst_zip input input2 (le_of_eq h2)
  have hsq : (input.zip input2).map (fun p => p.1 * p.1) = input.map (fun x => x * x) := by
    rw [show (fun p : ℚ × ℚ => p.1 * p.1) = (fun x : ℚ => x * x) ∘ Prod.fst from rfl,
        ← List.map_map, hfst]
  have hlen : (input.zip input2).length = input.length := by
    rw [List.length_zip, h2, min_self]
  simp only [compute_metrics]
  rw [hs, hq, hn, hfst, hsq, hlen]
  simp [stat_init]

/-- Witness for C4 on the dataset pair [1,2] against [3,4]. -/
theorem value_std_second_moment_witness :
    (compute_metrics [1, 2] [3, 4]).value_std =
      ([(1 : ℚ), 2].map (fun x => x * x)).sum
        - [(1 : ℚ), 2].sum * [(1 : ℚ), 2].sum / (([(1 : ℚ), 2].length : ℚ)) :=
  value_std_second_moment [1, 2] [3, 4] (by simp) (by simp)

/-! ## Claim C7 -/

/-- C7: for every pair of equal-length non-empty datasets, the value range,
difference range and error range are all non-negative. -/
theorem ranges_nonneg (input input2 : List ℚ) (h1 : input ≠ [])
    (h2 : input.length = input2.length) :
    0 ≤ (compute_metrics input input2).value_range ∧
    0 ≤ (compute_metrics input input2).difference_range ∧
    0 ≤ (compute_metrics input input2).error_range := by
  obtain ⟨m1, m2, m3⟩ :=
    foldl_step_minmax (input.zip input2) (stat_init (input.headD 0) (input2.headD 0))
  simp only [compute_metrics]
  refine ⟨sub_nonneg.mpr (m1 ?_), sub_nonneg.mpr (m2 ?_), sub_nonneg.mpr (m3 ?_)⟩ <;>
    simp [stat_init]

/-- Witness for C7 on the dataset pair [1,2] against [4,3]. -/
theorem ranges_nonneg_witness :
    0 ≤ (compute_metrics [1, 2] [4, 3]).value_range ∧
    0 ≤ (compute_metrics [1, 2] [4, 3]).difference_range ∧
    0 ≤ (compute_metrics [1, 2] [4, 3]).error_range :=
  ranges_nonneg [1, 2] [4, 3] (by simp) (by simp)

/-! ## Claim C5 -/

/-- C5 (counterexample): for the non-empty dataset [5] compared against an
identical copy of itself the value range is zero, so the psnr expression
divides zero by zero and is NaN, not +inf as the claim demands for every
such pair. -/
theorem identical_constant_psnr_counterexample :
    ¬ (compute_metrics [5] [5]).psnr = ext_double.posInf := by
  have hval : (compute_metrics [5] [5]).psnr = ext_double.nan := by
    simp only [compute_metrics, List.zip_cons_cons, List.zip_nil_right, List.foldl_cons,
      List.foldl_nil, List.headD_cons, stat_init, stat_step]
    norm_num [ieee_psnr]
  rw [hval]
  simp

/-- C5 (amended): for every non-empty dataset compared against an identical
copy of itself, the statistics give mse = 0, rmse = 0, average_error = 0,
min_error = max_error = 0, and psnr = +inf whenever the value range is
non-zero; when the dataset is constant the range is zero and the psnr
quotient is 0/0, i.e. NaN rather than +inf. -/
theorem identical_datasets_zero_error (l : List ℚ) (h : l ≠ []) :
    (compute_metrics l l).mse = 0 ∧
    (compute_metrics l l).rmse = 0 ∧
    (compute_metrics l l).average_error = 0 ∧
    (compute_metrics l l).min_error = 0 ∧
    (compute_metrics l l).max_error = 0 ∧
    ((compute_metrics l l).value_range ≠ 0 →
      (compute_metrics l l).psnr = ext_double.posInf) := by
  obtain ⟨hs, he, hmin, hmax⟩ := foldl_step_self l (stat_init (l.headD 0) (l.headD 0))
    (by simp [stat_init]) (by simp [stat_init]) (by simp [stat_init]) (by simp [stat_init])
  refine ⟨?_, ?_, ?_, ?_, ?_, ?_⟩
  · simp only [compute_metrics]
    rw [hs]
    simp
  · simp only [compute_metrics]
    rw [hs]
    simp
  · simp only [compute_metrics]
    rw [he]
    simp
  · simp only [compute_metrics]
    rw [hmin]
  · simp only [compute_metrics]
    rw [hmax]
  · intro hr
    simp only [compute_metrics] at hr ⊢
    rw [hs]
    have hrc : ((((l.zip l).foldl stat_step (stat_init (l.headD 0) (l.headD 0))).value_max -
        ((l.zip l).foldl stat_step (stat_init (l.headD 0) (l.headD 0))).value_min : ℚ) : ℝ)
        ≠ 0 := by
      exact_mod_cast hr
    simp only [ieee_psnr]
    rw [if_neg hrc, zero_div, Rat.cast_zero, Real.sqrt_zero, zero_div, if_pos rfl]

/-- Witness for the amended C5 on the non-constant dataset [1,2], where the
range is non-zero and psnr is +inf. -/
theorem identical_datasets_zero_error_witness :
    (compute_metrics [1, 2] [1, 2]).mse = 0 ∧
    (compute_metrics [1, 2] [1, 2]).rmse = 0 ∧
    (compute_metrics [1, 2] [1, 2]).psnr = ext_double.posInf := by
  have h := identical_datasets_zero_error [1, 2] (by simp)
  refine ⟨h.1, h.2.1, h.2.2.2.2.2 ?_⟩
  simp only [compute_metrics, List.zip_cons_cons, List.zip_nil_right, List.foldl_cons,
    List.foldl_nil, List.headD_cons, stat_init, stat_step]
  norm_num [min_def, max_def]

/-! ## Claim C6 -/

/-- C6: on the 4-element dataset [1,2,3,4] against [1,2,3,5] the statistics
give mse = 0.25, rmse = 0.5, average_error = 0.25, value_min = 1,
value_max = 4 and value_range = 3. -/
theorem known_dataset_metrics :
    (compute_metrics [1, 2, 3, 4] [1, 2, 3, 5]).mse = 0.25 ∧
    (compute_metrics [1, 2, 3, 4] [1, 2, 3, 5]).rmse = 0.5 ∧
    (compute_metrics [1, 2, 3, 4] [1, 2, 3, 5]).average_error = 0.25 ∧
    (compute_metrics [1, 2, 3, 4] [1, 2, 3, 5]).value_min = 1 ∧
    (compute_metrics [1, 2, 3, 4] [1, 2, 3, 5]).value_max = 4 ∧
    (compute_metrics [1, 2, 3, 4] [1, 2, 3, 5]).value_range = 3 := by
  have ha : ([(1 : ℚ), 2, 3, 4].zip [(1 : ℚ), 2, 3, 5]).foldl stat_step (stat_init 1 1) =
      { sum_of_squared_error := 1
        sum_of_difference := -1
        sum_of_error := 1
        sum_of_values_squared := 30
        sum := 10
        num_elements := 4
        value_min := 1
        value_max := 4
        diff_min := -1
        diff_max := 0
        error_min := 0
        error_max := 1 } := by
    simp only [List.zip_cons_cons, List.zip_nil_right, List.foldl_cons, List.foldl_nil,
      stat_init, stat_step]
    norm_num [min_def, max_def, abs]
  have hsqrt : Real.sqrt (((1 : ℚ) / 4 : ℚ) : ℝ) = 0.5 := by
    rw [show (((1 : ℚ) / 4 : ℚ) : ℝ) = (1 / 2 : ℝ) ^ 2 by norm_num,
        Real.sqrt_sq (by norm_num : (0 : ℝ) ≤ 1 / 2)]
    norm_num
  simp only [compute_metrics, List.headD_cons, ha]
  refine ⟨by norm_num, ?_, by norm_num, by norm_num, by norm_num, by norm_num⟩
  have hmse : (1 : ℚ) / ((4 : ℕ) : ℚ) = ((1 : ℚ) / 4 : ℚ) := by norm_num
  rw [hmse, hsqrt]

/-! ## Claim C10 -/

set_option maxHeartbeats 1000000 in
/-- The placeholder branch of the accessor as an explicit entry list. -/
theorem get_metrics_results_none_eq :
    get_metrics_results none =
      [("error_stat:psnr", pressio_option.typed option_type.double_t),
       ("error_stat:mse", pressio_option.typed option_type.double_t),
       ("error_stat:rmse", pressio_option.typed option_type.double_t),
       ("error_stat:value_mean", pressio_option.typed option_type.double_t),
       ("error_stat:value_std", pressio_option.typed option_type.double_t),
       ("error_stat:value_min", pressio_option.typed option_type.double_t),
       ("error_stat:value_max", pressio_option.typed option_type.double_t),
       ("error_stat:value_range", pressio_option.typed option_type.double_t),
       ("error_stat:min_error", pressio_option.typed option_type.double_t),
       ("error_stat:max_error", pressio_option.typed option_type.double_t),
       ("error_stat:min_rel_error", pressio_option.typed option_type.double_t),
       ("error_stat:max_rel_error", pressio_option.typed option_type.double_t),
       ("error_stat:average_difference", pressio_option.typed option_type.double_t),
       ("error_stat:average_error", pressio_option.typed option_type.double_t),
       ("error_stat:difference_range", pressio_option.typed option_type.double_t),
       ("error_stat:error_range", pressio_option.typed option_type.double_t)] := by
  simp only [get_metrics_results, opts_set_type, opts_set, String.reduceEq, reduceIte]

set_option maxHeartbeats 1000000 in
/-- The computed branch of the accessor as an explicit entry list. -/
theorem get_metrics_results_some_eq (m : error_metrics) :
    get_metrics_results (some m) =
      [("error_stat:psnr", pressio_option.dbl m.psnr),
       ("error_stat:mse", pressio_option.dbl (ext_double.fin (m.mse : ℝ))),
       ("error_stat:rmse", pressio_option.dbl (ext_double.fin m.rmse)),
       ("error_stat:value_mean", pressio_option.dbl (ext_double.fin (m.value_mean : ℝ))),
       ("error_stat:value_std", pressio_option.dbl (ext_double.fin (m.value_std : ℝ))),
       ("error_stat:value_min", pressio_option.dbl (ext_double.fin (m.value_min : ℝ))),
       ("error_stat:value_max", pressio_option.dbl (ext_double.fin (m.value_max : ℝ))),
       ("error_stat:value_range", pressio_option.dbl (ext_double.fin (m.value_range : ℝ))),
       ("error_stat:min_error", pressio_option.dbl (ext_double.fin (m.min_error : ℝ))),
       ("error_stat:max_error", pressio_option.dbl (ext_double.fin (m.max_error : ℝ))),
       ("error_stat:min_rel_error", pressio_option.dbl (ext_double.fin (m.min_rel_error : ℝ))),
       ("error_stat:max_rel_error", pressio_option.dbl (ext_double.fin (m.max_rel_error : ℝ))),
       ("error_stat:average_difference",
        pressio_option.dbl (ext_double.fin (m.average_difference : ℝ))),
       ("error_stat:average_error", pressio_option.dbl (ext_double.fin (m.average_error : ℝ))),
       ("error_stat:difference_range",
        pressio_option.dbl (ext_double.fin (m.difference_range : ℝ))),
       ("error_stat:error_range", pressio_option.dbl (ext_double.fin (m.error_range : ℝ)))] := by
  simp only [get_metrics_results, opts_set, String.reduceEq, reduceIte]

/-- C10: in every state of the error_stat collector (no metrics computed
yet, or any computed metrics record), the result accessor agrees pointwise
with the specification: exactly the sixteen error_stat keys are present, as
double-typed placeholders before the first end call and as the computed
values after it, and every other key is absent. -/
theorem get_metrics_results_spec (em : Option error_metrics) (k : String) :
    opts_get (get_metrics_results em) k = spec_error_stat_results em k := by
  by_cases hk : k ∈ error_stat_keys
  · simp only [error_stat_keys, List.mem_cons, List.not_mem_nil, or_false] at hk
    cases em with
    | none =>
        rcases hk with rfl | rfl | rfl | rfl | rfl | rfl | rfl | rfl | rfl | rfl | rfl | rfl |
            rfl | rfl | rfl | rfl <;>
          (rw [get_metrics_results_none_eq]
           simp [opts_get, spec_error_stat_results, error_stat_keys])
    | some m =>
        rcases hk with rfl | rfl | rfl | rfl | rfl | rfl | rfl | rfl | rfl | rfl | rfl | rfl |
            rfl | rfl | rfl | rfl <;>
          (rw [get_metrics_results_some_eq]
           simp [opts_get, spec_error_stat_results, spec_field_value, error_stat_keys])
  · have hspec : spec_error_stat_results em k = none := by
      cases em <;> simp [spec_error_stat_results, hk]
    rw [hspec]
    simp only [error_stat_keys, List.mem_cons, List.not_mem_nil, or_false, not_or] at hk
    obtain ⟨n1, n2, n3, n4, n5, n6, n7, n8, n9, n10, n11, n12, n13, n14, n15, n16⟩ := hk
    cases em with
    | none =>
        rw [get_metrics_results_none_eq]
        simp [opts_get, n1, n2, n3, n4, n5, n6, n7, n8, n9, n10, n11, n12, n13, n14, n15, n16]
    | some m =>
        rw [get_metrics_results_some_eq]
        simp [opts_get, n1, n2, n3, n4, n5, n6, n7, n8, n9, n10, n11, n12, n13, n14, n15, n16]

end LibpressioSpec
